import Mathlib

/-!
Verification of the PULP data-integrity manager / fallback orchestrator
(`python_service/pulp_fallback_manager.py`).

The Python module is shallowly embedded below.  JSON-like documents are
modelled by the inductive type `Value`; Python `dict`s are association
lists (`List (String × Value)`), Python `None` is `Value.null`.  Logging,
timestamps, uuids and the generated human chart note are side channels
that no theorem depends on and are elided from the embedded data
structures; every field of the Python dataclasses that carries data the
theorems talk about is kept.  The only Python failure point reachable in
the merge path (the `TypeError` raised by `annual_max - annual_used` on
non-numeric operands) is modelled with `Except`.
-/

set_option autoImplicit false

namespace Pulp

/-- JSON-like values, the shape of the clearinghouse documents the Python
module traverses.  `obj` keeps insertion order like a Python dict. -/
inductive Value where
  | null : Value
  | bool : Bool → Value
  | int : Int → Value
  | str : String → Value
  | arr : List Value → Value
  | obj : List (String × Value) → Value
deriving Repr

/-- `Criticality` enum from the source. -/
inductive Criticality where
  | CRITICAL
  | IMPORTANT
  | NICE_TO_HAVE
deriving DecidableEq, Repr

/-- `RetrievalMethod` enum from the source. -/
inductive RetrievalMethod where
  | RPA_SCRAPE
  | PDF_ANALYSIS
  | MANUAL_CALL
deriving DecidableEq, Repr

/-- `MergeSource` enum from the source. -/
inductive MergeSource where
  | API
  | RPA
  | PDF
  | MANUAL
  | INFERRED
  | MISSING
deriving DecidableEq, Repr

/-- One entry of `FIELD_REGISTRY`. -/
structure FieldDescriptor where
  field_path : String
  criticality : Criticality
  procedures : List String
  preferred_retrieval : RetrievalMethod
  fallback_retrieval : RetrievalMethod
  description : String
deriving DecidableEq, Repr

/-- Python `str.lower()` (ASCII is all the module uses). -/
def pyLower (s : String) : String :=
  String.mk (s.toList.map Char.toLower)

/-- Python `str.strip()`: drop whitespace from both ends. -/
def pyStrip (s : String) : String :=
  String.mk
    (((s.toList.dropWhile Char.isWhitespace).reverse.dropWhile
      Char.isWhitespace).reverse)

/-- Split a char list at every occurrence of `c` (Python `str.split(c)`
for a one-character separator); `acc` holds the current piece reversed. -/
def splitCharAux (c : Char) : List Char → List Char → List String
  | [], acc => [String.mk acc.reverse]
  | a :: rest, acc =>
    if a == c then String.mk acc.reverse :: splitCharAux c rest []
    else splitCharAux c rest (a :: acc)

/-- Python `dot_path.split(".")`. -/
def pySplitDot (s : String) : List String :=
  splitCharAux '.' s.toList []

/-- `hay.startsWithList needle`: the char list `hay` starts with `needle`. -/
def startsWithList : List Char → List Char → Bool
  | _, [] => true
  | [], _ :: _ => false
  | a :: as, b :: bs => a == b && startsWithList as bs

/-- Substring occurrence on char lists: `needle` occurs somewhere in `hay`. -/
def containsSubList : List Char → List Char → Bool
  | hay, needle =>
    if startsWithList hay needle then true
    else
      match hay with
      | [] => false
      | _ :: t => containsSubList t needle

/-- Python `needle in hay` on strings. -/
def strInStr (needle hay : String) : Bool :=
  containsSubList hay.toList needle.toList

/-- The sentinel strings of `_is_missing` (compared after `strip().lower()`). -/
def sentinelStrings : List String :=
  ["", "not found", "n/a", "unknown", "null", "none", "not applicable",
   "information not available", "not covered", "see plan documents"]

/-- `_is_missing` from the source: null, a sentinel string (after trim and
lower-casing), or an empty dict/list is missing; everything else —
including the number 0 and booleans — is present. -/
def isMissing : Value → Bool
  | Value.null => true
  | Value.str s => sentinelStrings.contains (pyLower (pyStrip s))
  | Value.arr xs => xs.isEmpty
  | Value.obj kvs => kvs.isEmpty
  | _ => false

/-- The loop body of `_get_nested`: walk the remaining dotted-path parts.
A non-dict node (or an absent key, which Python's `dict.get` turns into
`None`) short-circuits to `null`, never an error. -/
def getNestedParts : Value → List String → Value
  | node, [] => node
  | Value.obj kvs, part :: rest =>
      getNestedParts ((kvs.lookup part).getD Value.null) rest
  | _, _ :: _ => Value.null

/-- `_get_nested` from the source: safe dotted-path traversal. -/
def getNested (data : Value) (dotPath : String) : Value :=
  getNestedParts data (pySplitDot dotPath)

/-- `_procedure_is_relevant` from the source: `"*"` always matches,
otherwise case-insensitive mutual-substring matching between scheduled
procedure descriptions and the descriptor's matcher strings. -/
def procedureIsRelevant (scheduledProcedures : List String)
    (fieldProcedures : List String) : Bool :=
  if fieldProcedures.contains "*" then true
  else
    scheduledProcedures.any fun sched =>
      fieldProcedures.any fun fp =>
        strInStr (pyLower fp) (pyLower sched) || strInStr (pyLower sched) (pyLower fp)

/-- `_grade` from the source: letter grade from a completeness score. -/
def gradeOf (score : ℚ) : String :=
  if score ≥ 0.95 then "A"
  else if score ≥ 0.85 then "B"
  else if score ≥ 0.70 then "C"
  else if score ≥ 0.50 then "D"
  else "F"

/-- `FIELD_REGISTRY` from the source, transcribed verbatim. -/
def FIELD_REGISTRY : List FieldDescriptor := [
  { field_path := "annual_maximum_remaining", criticality := .CRITICAL,
    procedures := ["*"],
    preferred_retrieval := .RPA_SCRAPE, fallback_retrieval := .PDF_ANALYSIS,
    description := "Annual Maximum Remaining" },
  { field_path := "individual_deductible", criticality := .CRITICAL,
    procedures := ["*"],
    preferred_retrieval := .RPA_SCRAPE, fallback_retrieval := .PDF_ANALYSIS,
    description := "Individual Deductible (Total)" },
  { field_path := "deductible_met", criticality := .CRITICAL,
    procedures := ["*"],
    preferred_retrieval := .RPA_SCRAPE, fallback_retrieval := .PDF_ANALYSIS,
    description := "Deductible Met Year-to-Date" },
  { field_path := "frequency_limits.D2740", criticality := .CRITICAL,
    procedures := ["crown", "D2740", "D2750", "D2751", "D2752"],
    preferred_retrieval := .RPA_SCRAPE, fallback_retrieval := .PDF_ANALYSIS,
    description := "Crown Frequency Limit (D2740 — PFM Crown)" },
  { field_path := "frequency_limits.D4341", criticality := .CRITICAL,
    procedures := ["perio", "SRP", "D4341", "D4342"],
    preferred_retrieval := .RPA_SCRAPE, fallback_retrieval := .PDF_ANALYSIS,
    description := "Perio SRP Frequency Limit (D4341)" },
  { field_path := "missing_tooth_clause", criticality := .CRITICAL,
    procedures := ["implant", "bridge", "partial", "D6010", "D6240", "D5211"],
    preferred_retrieval := .PDF_ANALYSIS, fallback_retrieval := .MANUAL_CALL,
    description := "Missing Tooth Clause (prosthetic / implant exclusion)" },
  { field_path := "frequency_limits.D1110", criticality := .IMPORTANT,
    procedures := ["prophy", "cleaning", "D1110", "D1120"],
    preferred_retrieval := .RPA_SCRAPE, fallback_retrieval := .PDF_ANALYSIS,
    description := "Adult Prophy Frequency (D1110)" },
  { field_path := "frequency_limits.D0274", criticality := .IMPORTANT,
    procedures := ["bitewing", "BWX", "D0274", "D0272"],
    preferred_retrieval := .RPA_SCRAPE, fallback_retrieval := .PDF_ANALYSIS,
    description := "Bitewing X-Ray Frequency (D0274 — 4 BWX)" },
  { field_path := "waiting_period.major", criticality := .IMPORTANT,
    procedures := ["crown", "bridge", "D2740", "D2750", "D6240"],
    preferred_retrieval := .PDF_ANALYSIS, fallback_retrieval := .MANUAL_CALL,
    description := "Waiting Period — Major Services" },
  { field_path := "composite_posterior_downgrade", criticality := .IMPORTANT,
    procedures := ["composite", "D2330", "D2331", "D2332", "D2335"],
    preferred_retrieval := .RPA_SCRAPE, fallback_retrieval := .PDF_ANALYSIS,
    description := "Posterior Composite Downgrade to Amalgam Rate" },
  { field_path := "frequency_limits.D4910", criticality := .IMPORTANT,
    procedures := ["perio maintenance", "D4910"],
    preferred_retrieval := .RPA_SCRAPE, fallback_retrieval := .PDF_ANALYSIS,
    description := "Perio Maintenance Frequency (D4910)" },
  { field_path := "coverage_pct.basic", criticality := .IMPORTANT,
    procedures := ["*"],
    preferred_retrieval := .RPA_SCRAPE, fallback_retrieval := .PDF_ANALYSIS,
    description := "Basic / Restorative Coverage Percentage" },
  { field_path := "coverage_pct.major", criticality := .IMPORTANT,
    procedures := ["crown", "bridge", "D2740", "D6240"],
    preferred_retrieval := .RPA_SCRAPE, fallback_retrieval := .PDF_ANALYSIS,
    description := "Major Services Coverage Percentage" },
  { field_path := "frequency_limits.D1351", criticality := .NICE_TO_HAVE,
    procedures := ["sealant", "D1351"],
    preferred_retrieval := .RPA_SCRAPE, fallback_retrieval := .PDF_ANALYSIS,
    description := "Sealant Frequency / Age Limit (D1351)" },
  { field_path := "ortho_lifetime_maximum", criticality := .NICE_TO_HAVE,
    procedures := ["ortho", "D8080", "D8090"],
    preferred_retrieval := .PDF_ANALYSIS, fallback_retrieval := .MANUAL_CALL,
    description := "Orthodontic Lifetime Maximum" },
  { field_path := "fluoride_coverage", criticality := .NICE_TO_HAVE,
    procedures := ["fluoride", "D1206", "D1208"],
    preferred_retrieval := .RPA_SCRAPE, fallback_retrieval := .PDF_ANALYSIS,
    description := "Fluoride Coverage" }]

/-- The dotted paths tracked by the registry (`all_paths` in the merger). -/
def registryPaths : List String :=
  FIELD_REGISTRY.map (·.field_path)

/-- `MissingField` dataclass from the source. -/
structure MissingField where
  field_path : String
  description : String
  criticality : Criticality
  preferred_retrieval : RetrievalMethod
  fallback_retrieval : RetrievalMethod
  relevant_to_today : Bool
deriving DecidableEq, Repr

/-- `RetrievalJob` dataclass from the source.  The `job_id` (a random
uuid), the patient/carrier/member identifiers and `created_at` timestamp
are pass-through strings no decision depends on and are elided. -/
structure RetrievalJob where
  method : RetrievalMethod
  fields_requested : List String
  criticality : Criticality
  status : String := "PENDING"
  result : List (String × Value) := []
deriving Repr

/-- `IntegrityReport` dataclass from the source (identifiers, timestamp
and the audit-trail strings elided). -/
structure IntegrityReport where
  completeness_score : ℚ
  completeness_grade : String
  critical_missing : List MissingField
  important_missing : List MissingField
  nice_to_have_missing : List MissingField
  retrieval_jobs : List RetrievalJob
  block_appointment : Bool
deriving Repr

/-- `SmartBreakdown` dataclass from the source (identifiers, timestamp,
audit trail and the generated human chart note elided). -/
structure SmartBreakdown where
  completeness_score : ℚ
  completeness_grade : String
  fields : List (String × Value)
  sources : List (String × MergeSource)
  warnings : List String
deriving Repr

/-- The `MissingField` record built for a missing registry entry inside
`evaluate_integrity`'s loop. -/
def mkMissingField (scheduledProcedures : List String)
    (reg : FieldDescriptor) : MissingField :=
  { field_path := reg.field_path
    description := reg.description
    criticality := reg.criticality
    preferred_retrieval := reg.preferred_retrieval
    fallback_retrieval := reg.fallback_retrieval
    relevant_to_today := procedureIsRelevant scheduledProcedures reg.procedures }

/-- The registry entries whose resolved document value is missing, in
registry order (the entries `evaluate_integrity`'s loop flags). -/
def missingRegs (doc : Value) : List FieldDescriptor :=
  FIELD_REGISTRY.filter fun reg => isMissing (getNested doc reg.field_path)

/-- `critical_missing` as accumulated by `evaluate_integrity`. -/
def criticalMissing (doc : Value) (scheduledProcedures : List String) :
    List MissingField :=
  ((missingRegs doc).filter fun reg => reg.criticality == Criticality.CRITICAL).map
    (mkMissingField scheduledProcedures)

/-- `important_missing` as accumulated by `evaluate_integrity`. -/
def importantMissing (doc : Value) (scheduledProcedures : List String) :
    List MissingField :=
  ((missingRegs doc).filter fun reg => reg.criticality == Criticality.IMPORTANT).map
    (mkMissingField scheduledProcedures)

/-- `nice_missing` as accumulated by `evaluate_integrity`. -/
def niceMissing (doc : Value) (scheduledProcedures : List String) :
    List MissingField :=
  ((missingRegs doc).filter fun reg => reg.criticality == Criticality.NICE_TO_HAVE).map
    (mkMissingField scheduledProcedures)

/-- `fields_present` at the end of `evaluate_integrity`'s loop. -/
def fieldsPresent (doc : Value) : Nat :=
  (FIELD_REGISTRY.filter fun reg => !(isMissing (getNested doc reg.field_path))).length

/-- The `top_crit` loop of `_build_retrieval_jobs`: starts at
NICE_TO_HAVE, upgraded to IMPORTANT when one is seen, CRITICAL wins with
an early break. -/
def topCrit (batch : List MissingField) : Criticality :=
  if batch.any fun mf => mf.criticality == Criticality.CRITICAL then .CRITICAL
  else if batch.any fun mf => mf.criticality == Criticality.IMPORTANT then .IMPORTANT
  else .NICE_TO_HAVE

/-- Numeric rank of a criticality tier (CRITICAL highest). -/
def critRank : Criticality → Nat
  | .CRITICAL => 2
  | .IMPORTANT => 1
  | .NICE_TO_HAVE => 0

/-- `fields_to_retrieve` in `_build_retrieval_jobs`: NICE_TO_HAVE fields
that are not relevant to today are skipped. -/
def fieldsToRetrieve (missingFields : List MissingField) : List MissingField :=
  missingFields.filter fun mf =>
    !(mf.criticality == Criticality.NICE_TO_HAVE) || mf.relevant_to_today

/-- The fixed `method_order` of `_build_retrieval_jobs`. -/
def methodOrder : List RetrievalMethod :=
  [.RPA_SCRAPE, .PDF_ANALYSIS, .MANUAL_CALL]

/-- The batch for one method: the retained missing fields grouped by
preferred retrieval method (grouping with stable order = filtering). -/
def batchOf (missingFields : List MissingField) (m : RetrievalMethod) :
    List MissingField :=
  (fieldsToRetrieve missingFields).filter fun mf => mf.preferred_retrieval == m

/-- The job `_build_retrieval_jobs` creates for one method (none when the
batch is empty). -/
def mkJobFor (missingFields : List MissingField) (m : RetrievalMethod) :
    Option RetrievalJob :=
  if (batchOf missingFields m).isEmpty then none
  else some
    { method := m
      fields_requested := (batchOf missingFields m).map (·.field_path)
      criticality := topCrit (batchOf missingFields m) }

/-- `_build_retrieval_jobs` from the source: one job per non-empty method
batch, in the fixed method order. -/
def buildRetrievalJobs (missingFields : List MissingField) : List RetrievalJob :=
  methodOrder.filterMap (mkJobFor missingFields)

/-- `evaluate_integrity` from the source. -/
def evaluateIntegrity (doc : Value) (scheduledProcedures : List String) :
    IntegrityReport :=
  let completeness : ℚ := (fieldsPresent doc : ℚ) / (FIELD_REGISTRY.length : ℚ)
  { completeness_score := completeness
    completeness_grade := gradeOf completeness
    critical_missing := criticalMissing doc scheduledProcedures
    important_missing := importantMissing doc scheduledProcedures
    nice_to_have_missing := niceMissing doc scheduledProcedures
    retrieval_jobs := buildRetrievalJobs
      (criticalMissing doc scheduledProcedures ++
       importantMissing doc scheduledProcedures ++
       niceMissing doc scheduledProcedures)
    block_appointment :=
      (criticalMissing doc scheduledProcedures).any (·.relevant_to_today) }

/-- `simulated_data` of `rpa_scrape_stub`, transcribed verbatim. -/
def rpaSimulatedData : List (String × Value) := [
  ("annual_maximum_remaining", .int 145000),
  ("individual_deductible", .int 5000),
  ("deductible_met", .int 5000),
  ("frequency_limits.D1110", .obj [
    ("times_per_period", .int 2), ("period", .str "calendar_year"),
    ("used_this_period", .int 1), ("next_eligible_date", .str "2025-07-10")]),
  ("frequency_limits.D0274", .obj [
    ("times_per_period", .int 1), ("period", .str "calendar_year"),
    ("used_this_period", .int 0), ("next_eligible_date", .null)]),
  ("frequency_limits.D2740", .obj [
    ("times_per_period", .int 1), ("period", .str "5_years"),
    ("last_service_date", .null), ("next_eligible_date", .null)]),
  ("frequency_limits.D4341", .obj [
    ("quads_per_year", .int 4), ("used_this_year", .int 0),
    ("last_service_date", .null)]),
  ("composite_posterior_downgrade", .bool false),
  ("coverage_pct.basic", .int 80),
  ("coverage_pct.major", .int 50)]

/-- `simulated_data` of `pdf_analysis_stub`, transcribed verbatim. -/
def pdfSimulatedData : List (String × Value) := [
  ("missing_tooth_clause", .obj [
    ("applies", .bool false),
    ("notes", .str "No missing tooth clause identified in plan documents."),
    ("affected_teeth", .arr [])]),
  ("waiting_period.major", .obj [
    ("months", .int 0), ("waived_for", .str "accident"),
    ("effective_date", .str "2024-01-01")]),
  ("frequency_limits.D4910", .obj [
    ("times_per_period", .int 4), ("period", .str "calendar_year"),
    ("used_this_period", .int 0)]),
  ("ortho_lifetime_maximum", .int 150000),
  ("fluoride_coverage", .bool true)]

/-- `rpa_scrape_stub`: returns the simulated values for the requested
paths, marks the job COMPLETE and stores the result on it. -/
def rpaScrapeStub (job : RetrievalJob) : RetrievalJob × List (String × Value) :=
  let result := job.fields_requested.filterMap fun k =>
    (rpaSimulatedData.lookup k).map fun v => (k, v)
  ({ job with status := "COMPLETE", result := result }, result)

/-- `pdf_analysis_stub`: same contract as the RPA stub over PDF data. -/
def pdfAnalysisStub (job : RetrievalJob) : RetrievalJob × List (String × Value) :=
  let result := job.fields_requested.filterMap fun k =>
    (pdfSimulatedData.lookup k).map fun v => (k, v)
  ({ job with status := "COMPLETE", result := result }, result)

/-- `manual_call_stub`: logs a call script, marks the job MANUAL_REQUIRED
and contributes no data. -/
def manualCallStub (job : RetrievalJob) : RetrievalJob × List (String × Value) :=
  ({ job with status := "MANUAL_REQUIRED" }, [])

/-- Python's `priority.get(j.criticality, 9)` in `dispatch_and_collect`. -/
def critPriority : Criticality → Nat
  | .CRITICAL => 0
  | .IMPORTANT => 1
  | .NICE_TO_HAVE => 2

/-- Python's stable `sorted` by the 3-valued criticality key: equivalent
to concatenating the per-key filters in key order. -/
def sortJobsByCriticality (jobs : List RetrievalJob) : List RetrievalJob :=
  (jobs.filter fun j => critPriority j.criticality == 0) ++
  (jobs.filter fun j => critPriority j.criticality == 1) ++
  (jobs.filter fun j => critPriority j.criticality == 2)

/-- Python `dict` assignment `d[k] = v`: replace in place if the key
exists, otherwise append. -/
def upsert {α : Type} (d : List (String × α)) (k : String) (v : α) :
    List (String × α) :=
  if d.any fun kv => kv.1 == k then
    d.map fun kv => if kv.1 == k then (k, v) else kv
  else d ++ [(k, v)]

/-- Python `collected.update(result)`. -/
def dictUpdate {α : Type} (d new : List (String × α)) : List (String × α) :=
  new.foldl (fun acc kv => upsert acc kv.1 kv.2) d

/-- The body of `dispatch_and_collect`'s loop: select the stub by the
job's method. -/
def runJobSource (job : RetrievalJob) : RetrievalJob × List (String × Value) :=
  match job.method with
  | .RPA_SCRAPE => rpaScrapeStub job
  | .PDF_ANALYSIS => pdfAnalysisStub job
  | .MANUAL_CALL => manualCallStub job

/-- The loop of `dispatch_and_collect`, generalized over the connector so
that the spec's pluggable-connector contract (a connector invocation that
may raise) is expressible: an `Except.error` from a connector propagates
out of the loop exactly as an uncaught Python exception would — the
source contains no try/except around the connector calls.  Returns the
executed jobs (with their mutated status/result) and the collected map. -/
def dispatchLoopWith
    (connector : RetrievalJob → Except String (RetrievalJob × List (String × Value))) :
    List RetrievalJob → List RetrievalJob → List (String × Value) →
    Except String (List RetrievalJob × List (String × Value))
  | [], done, collected => .ok (done, collected)
  | j :: rest, done, collected =>
    match connector j with
    | .error e => .error e
    | .ok (j2, result) =>
        dispatchLoopWith connector rest (done ++ [j2]) (dictUpdate collected result)

/-- The source's connectors never raise. -/
def sourceConnector (job : RetrievalJob) :
    Except String (RetrievalJob × List (String × Value)) :=
  .ok (runJobSource job)

/-- The dispatch phase generalized over the connector assignment (the
spec treats connectors as pluggable; the source hard-wires the three
stubs via `runJobSource`). -/
def dispatchAndCollectWith
    (connector : RetrievalJob → Except String (RetrievalJob × List (String × Value)))
    (jobs : List RetrievalJob) :
    Except String (List RetrievalJob × List (String × Value)) :=
  dispatchLoopWith connector (sortJobsByCriticality jobs) [] []

/-- `dispatch_and_collect` from the source: sort by criticality, run each
job's stub, union the results. -/
def dispatchAndCollect (jobs : List RetrievalJob) :
    Except String (List RetrievalJob × List (String × Value)) :=
  dispatchAndCollectWith sourceConnector jobs

/-- A connector assignment whose portal-scrape connector always raises;
the other methods keep the source's connectors. -/
def failingRpaConnector (job : RetrievalJob) :
    Except String (RetrievalJob × List (String × Value)) :=
  if job.method == RetrievalMethod.RPA_SCRAPE then
    Except.error "portal connector crashed"
  else sourceConnector job

/-- The merger's scan deciding whether a secondary value came from RPA,
PDF or MANUAL: the first job whose result map holds the path wins,
defaulting to RPA. -/
def secondarySourceOf (report : IntegrityReport) (path : String) : MergeSource :=
  match report.retrieval_jobs.find? fun job => job.result.any fun kv => kv.1 == path with
  | some job =>
    match job.method with
    | .RPA_SCRAPE => .RPA
    | .PDF_ANALYSIS => .PDF
    | .MANUAL_CALL => .MANUAL
  | none => .RPA

/-- The warning string appended for an unretrievable relevant field. -/
def warnText (reg : FieldDescriptor) : String :=
  "⚠ " ++ reg.description ++ " could not be retrieved — estimate may be inaccurate"

/-- `sec_val = secondary_data.get(path)` (Python absent key gives None). -/
def secVal (secondaryData : List (String × Value)) (path : String) : Value :=
  (secondaryData.lookup path).getD Value.null

/-- One iteration of the merge loop in `merge_into_smart_breakdown`,
updating the (fields, sources, warnings) accumulator for one path. -/
def mergeStep (doc : Value) (secondaryData : List (String × Value))
    (report : IntegrityReport) (scheduledProcedures : List String)
    (acc : List (String × Value) × List (String × MergeSource) × List String)
    (path : String) :
    List (String × Value) × List (String × MergeSource) × List String :=
  let apiVal := getNested doc path
  let sv := secVal secondaryData path
  if !(isMissing apiVal) then
    (upsert acc.1 path apiVal, upsert acc.2.1 path MergeSource.API, acc.2.2)
  else if !(isMissing sv) then
    (upsert acc.1 path sv,
     upsert acc.2.1 path (secondarySourceOf report path), acc.2.2)
  else
    let ws :=
      match FIELD_REGISTRY.find? fun r => r.field_path == path with
      | some reg =>
        if procedureIsRelevant scheduledProcedures reg.procedures &&
           (reg.criticality == Criticality.CRITICAL ||
            reg.criticality == Criticality.IMPORTANT) then
          acc.2.2 ++ [warnText reg]
        else acc.2.2
      | none => acc.2.2
    (upsert acc.1 path Value.null, upsert acc.2.1 path MergeSource.MISSING, ws)

/-- The whole per-path merge loop over `all_paths`. -/
def mergeLoop (doc : Value) (secondaryData : List (String × Value))
    (report : IntegrityReport) (scheduledProcedures : List String) :
    List (String × Value) × List (String × MergeSource) × List String :=
  registryPaths.foldl (mergeStep doc secondaryData report scheduledProcedures)
    ([], [], [])

/-- Python truthiness on the document values the merger coalesces. -/
def pyTruthy : Value → Bool
  | .null => false
  | .bool b => b
  | .int n => n != 0
  | .str s => !(s.isEmpty)
  | .arr xs => !xs.isEmpty
  | .obj kvs => !kvs.isEmpty

/-- Python `a or b`. -/
def pyOr (a b : Value) : Value :=
  if pyTruthy a then a else b

/-- `value is None`. -/
def isNull : Value → Bool
  | .null => true
  | _ => false

/-- The coalesced operand of the inference rule:
`_get_nested(api_response, p) or secondary_data.get(p)`. -/
def orResolve (doc : Value) (secondaryData : List (String × Value))
    (path : String) : Value :=
  pyOr (getNested doc path) (secVal secondaryData path)

/-- Python `annual_max - annual_used`: integer (or bool-as-int)
subtraction, a `TypeError` on any other operand types. -/
def valueSub (a b : Value) : Except String Value :=
  match a, b with
  | .int x, .int y => .ok (.int (x - y))
  | .int x, .bool y => .ok (.int (x - (if y then 1 else 0)))
  | .bool x, .int y => .ok (.int ((if x then 1 else 0) - y))
  | .bool x, .bool y => .ok (.int ((if x then 1 else 0) - (if y then 1 else 0)))
  | _, _ => .error "TypeError: unsupported operand type(s) for -"

/-- The single inference rule of the merger: if
`annual_maximum_remaining` is still tagged MISSING and the coalesced
`annual_maximum` and `annual_used` are both non-None, write their
difference tagged INFERRED. -/
def applyInference (doc : Value) (secondaryData : List (String × Value))
    (fs : List (String × Value)) (ss : List (String × MergeSource)) :
    Except String (List (String × Value) × List (String × MergeSource)) :=
  if ss.lookup "annual_maximum_remaining" = some MergeSource.MISSING then
    let am := orResolve doc secondaryData "annual_maximum"
    let au := orResolve doc secondaryData "annual_used"
    if !(isNull am) && !(isNull au) then
      match valueSub am au with
      | .ok inferred =>
        .ok (upsert fs "annual_maximum_remaining" inferred,
             upsert ss "annual_maximum_remaining" MergeSource.INFERRED)
      | .error e => .error e
    else .ok (fs, ss)
  else .ok (fs, ss)

/-- The post-merge completeness recomputation:
`present_count / len(all_paths) if all_paths else 0.0`. -/
def mergeCompleteness (fs2 : List (String × Value)) : ℚ :=
  if registryPaths.isEmpty then 0
  else ((fs2.filter fun kv => !(isNull kv.2)).length : ℚ) / (registryPaths.length : ℚ)

/-- `merge_into_smart_breakdown` from the source. -/
def mergeIntoSmartBreakdown (doc : Value) (secondaryData : List (String × Value))
    (report : IntegrityReport) (scheduledProcedures : List String) :
    Except String SmartBreakdown :=
  match applyInference doc secondaryData
      (mergeLoop doc secondaryData report scheduledProcedures).1
      (mergeLoop doc secondaryData report scheduledProcedures).2.1 with
  | .error e => .error e
  | .ok (fs2, ss2) =>
    .ok { completeness_score := mergeCompleteness fs2
          completeness_grade := gradeOf (mergeCompleteness fs2)
          fields := fs2
          sources := ss2
          warnings := (mergeLoop doc secondaryData report scheduledProcedures).2.2 }

/-! ### Pointwise reformulation of the merge loop, for the proofs. -/

/-- The value the merge loop assigns to one path. -/
def mergedVal (doc : Value) (secondaryData : List (String × Value))
    (path : String) : Value :=
  if !(isMissing (getNested doc path)) then getNested doc path
  else if !(isMissing (secVal secondaryData path)) then secVal secondaryData path
  else Value.null

/-- The provenance the merge loop assigns to one path. -/
def mergedSrc (doc : Value) (secondaryData : List (String × Value))
    (report : IntegrityReport) (path : String) : MergeSource :=
  if !(isMissing (getNested doc path)) then .API
  else if !(isMissing (secVal secondaryData path)) then secondarySourceOf report path
  else .MISSING

/-- The warning (if any) the merge loop appends for one path. -/
def warnOf (doc : Value) (secondaryData : List (String × Value))
    (scheduledProcedures : List String) (path : String) : Option String :=
  if !(isMissing (getNested doc path)) then none
  else if !(isMissing (secVal secondaryData path)) then none
  else
    match FIELD_REGISTRY.find? fun r => r.field_path == path with
    | some reg =>
      if procedureIsRelevant scheduledProcedures reg.procedures &&
         (reg.criticality == Criticality.CRITICAL ||
          reg.criticality == Criticality.IMPORTANT) then some (warnText reg)
      else none
    | none => none

/-! ### Concrete inputs used by the witnesses -/

/-- A document populating every registry path with a non-missing value. -/
def fullDoc : Value := .obj [
  ("annual_maximum_remaining", .int 145000),
  ("individual_deductible", .int 5000),
  ("deductible_met", .int 5000),
  ("frequency_limits", .obj [
    ("D2740", .int 1), ("D4341", .int 1), ("D1110", .int 2),
    ("D0274", .int 1), ("D4910", .int 4), ("D1351", .int 1)]),
  ("missing_tooth_clause", .obj [("applies", .bool false)]),
  ("waiting_period", .obj [("major", .int 0)]),
  ("composite_posterior_downgrade", .bool false),
  ("coverage_pct", .obj [("basic", .int 80), ("major", .int 50)]),
  ("ortho_lifetime_maximum", .int 150000),
  ("fluoride_coverage", .bool true)]

/-- A report with no retrieval jobs (for exercising the merger alone). -/
def emptyReport : IntegrityReport :=
  { completeness_score := 0
    completeness_grade := "F"
    critical_missing := []
    important_missing := []
    nice_to_have_missing := []
    retrieval_jobs := []
    block_appointment := false }

/-- A placeholder breakdown (default for extracting an `Except` value). -/
def emptyBreakdown : SmartBreakdown :=
  { completeness_score := 0
    completeness_grade := "F"
    fields := []
    sources := []
    warnings := [] }

/-! ### General lemmas -/

theorem upsert_of_fresh {α : Type} (d : List (String × α)) (k : String) (v : α)
    (h : (d.any fun kv => kv.1 == k) = false) : upsert d k v = d ++ [(k, v)] := by
  simp [upsert, h]

theorem lookup_map_replace_self {α : Type} (k : String) (v : α) :
    ∀ d : List (String × α), (d.any fun kv => kv.1 == k) = true →
    (d.map fun kv => if kv.1 == k then (k, v) else kv).lookup k = some v := by
  intro d hd
  induction d with
  | nil => simp at hd
  | cons hd0 tl ih =>
    obtain ⟨k0, v0⟩ := hd0
    by_cases hk : k0 = k
    · subst hk
      simp [List.lookup_cons]
    · have hk2 : (k0 == k) = false := beq_eq_false_iff_ne.mpr hk
      have hk3 : (k == k0) = false := beq_eq_false_iff_ne.mpr (Ne.symm hk)
      simp only [List.any_cons, hk2, Bool.false_or] at hd
      simpa [List.lookup_cons, hk, hk2, hk3] using ih hd

theorem lookup_map_replace_ne {α : Type} (k q : String) (v : α) (h : q ≠ k) :
    ∀ d : List (String × α),
    (d.map fun kv => if kv.1 == k then (k, v) else kv).lookup q = d.lookup q := by
  intro d
  induction d with
  | nil => simp
  | cons hd0 tl ih =>
    obtain ⟨k0, v0⟩ := hd0
    by_cases hk : k0 = k
    · subst hk
      have hqk : (q == k0) = false := beq_eq_false_iff_ne.mpr h
      simpa [List.lookup_cons, hqk] using ih
    · have hk2 : (k0 == k) = false := beq_eq_false_iff_ne.mpr hk
      by_cases hq : q = k0
      · subst hq
        simp [List.lookup_cons, hk, hk2]
      · have hq2 : (q == k0) = false := beq_eq_false_iff_ne.mpr hq
        simpa [List.lookup_cons, hk, hk2, hq2] using ih

theorem lookup_append_last_ne {α : Type} (k q : String) (v : α) (h : q ≠ k) :
    ∀ d : List (String × α), (d ++ [(k, v)]).lookup q = d.lookup q := by
  intro d
  induction d with
  | nil => simp [List.lookup_cons, beq_eq_false_iff_ne.mpr h]
  | cons hd0 tl ih =>
    obtain ⟨k0, v0⟩ := hd0
    by_cases hq : q = k0
    · subst hq
      simp [List.lookup_cons]
    · simp [List.lookup_cons, beq_eq_false_iff_ne.mpr hq, ih]

theorem lookup_append_last_self {α : Type} (k : String) (v : α) :
    ∀ d : List (String × α), (d.any fun kv => kv.1 == k) = false →
    (d ++ [(k, v)]).lookup k = some v := by
  intro d hd
  induction d with
  | nil => simp
  | cons hd0 tl ih =>
    obtain ⟨k0, v0⟩ := hd0
    simp only [List.any_cons, Bool.or_eq_false_iff] at hd
    have hne : (k == k0) = false := by
      refine beq_eq_false_iff_ne.mpr fun e => ?_
      have := beq_eq_false_iff_ne.mp hd.1
      exact this e.symm
    simp [List.lookup_cons, hne, ih hd.2]

theorem lookup_upsert_self {α : Type} (d : List (String × α)) (k : String) (v : α) :
    (upsert d k v).lookup k = some v := by
  unfold upsert
  by_cases h : (d.any fun kv => kv.1 == k) = true
  · rw [if_pos h]
    exact lookup_map_replace_self k v d h
  · rw [if_neg h]
    exact lookup_append_last_self k v d (Bool.not_eq_true _ ▸ h)

theorem lookup_upsert_ne {α : Type} (d : List (String × α)) (k : String) (v : α)
    (q : String) (h : q ≠ k) : (upsert d k v).lookup q = d.lookup q := by
  unfold upsert
  by_cases hmem : (d.any fun kv => kv.1 == k) = true
  · rw [if_pos hmem]
    exact lookup_map_replace_ne k q v h d
  · rw [if_neg hmem]
    exact lookup_append_last_ne k q v h d

theorem keys_upsert_of_mem {α : Type} (d : List (String × α)) (k : String) (v : α)
    (h : (d.any fun kv => kv.1 == k) = true) :
    (upsert d k v).map Prod.fst = d.map Prod.fst := by
  simp only [upsert, h, if_pos, List.map_map]
  apply List.map_congr_left
  intro kv _
  by_cases hk : kv.1 = k
  · simp [hk]
  · simp [hk]

theorem mergeStep_parts (d : Value) (s : List (String × Value))
    (r : IntegrityReport) (sp : List String)
    (acc : List (String × Value) × List (String × MergeSource) × List String)
    (p : String) :
    mergeStep d s r sp acc p =
      (upsert acc.1 p (mergedVal d s p),
       upsert acc.2.1 p (mergedSrc d s r p),
       acc.2.2 ++ (warnOf d s sp p).toList) := by
  simp only [mergeStep, mergedVal, mergedSrc, warnOf]
  cases h1 : isMissing (getNested d p) with
  | false => simp [h1]
  | true =>
    cases h2 : isMissing (secVal s p) with
    | false => simp [h1, h2]
    | true =>
      simp only [h1, h2, Bool.not_true, Bool.false_eq_true, if_false]
      cases hf : FIELD_REGISTRY.find? fun r2 => r2.field_path == p with
      | none => simp [hf]
      | some reg =>
        by_cases hc : (procedureIsRelevant sp reg.procedures &&
            (reg.criticality == Criticality.CRITICAL ||
             reg.criticality == Criticality.IMPORTANT)) = true
        · simp [hf, hc]
        · simp [hf, hc]

theorem foldl_mergeStep (d : Value) (s : List (String × Value))
    (r : IntegrityReport) (sp : List String) :
    ∀ (ps : List String) (fsa : List (String × Value))
      (ssa : List (String × MergeSource)) (wsa : List String),
    ps.Nodup →
    (∀ p ∈ ps, (fsa.any fun kv => kv.1 == p) = false) →
    (∀ p ∈ ps, (ssa.any fun kv => kv.1 == p) = false) →
    ps.foldl (mergeStep d s r sp) (fsa, ssa, wsa) =
      (fsa ++ ps.map fun p => (p, mergedVal d s p),
       ssa ++ ps.map fun p => (p, mergedSrc d s r p),
       wsa ++ ps.filterMap (warnOf d s sp)) := by
  intro ps
  induction ps with
  | nil => intro fsa ssa wsa _ _ _; simp
  | cons p tl ih =>
    intro fsa ssa wsa hnd hf hs
    have hndtl : tl.Nodup := (List.nodup_cons.mp hnd).2
    have hp : p ∉ tl := (List.nodup_cons.mp hnd).1
    have hfp := hf p (List.mem_cons_self _ _)
    have hsp := hs p (List.mem_cons_self _ _)
    rw [List.foldl_cons, mergeStep_parts,
      upsert_of_fresh _ _ _ hfp, upsert_of_fresh _ _ _ hsp]
    rw [ih (fsa ++ [(p, mergedVal d s p)]) (ssa ++ [(p, mergedSrc d s r p)])
      (wsa ++ (warnOf d s sp p).toList) hndtl ?_ ?_]
    · refine congrArg₂ Prod.mk ?_ (congrArg₂ Prod.mk ?_ ?_)
      · simp
      · simp
      · rw [List.append_assoc]
        refine congrArg (wsa ++ ·) ?_
        cases hw : warnOf d s sp p with
        | none => simp [List.filterMap_cons, hw]
        | some w => simp [List.filterMap_cons, hw]
    · intro q hq
      have h1 := hf q (List.mem_cons_of_mem _ hq)
      have h2 : (p == q) = false :=
        beq_eq_false_iff_ne.mpr fun e => hp (e ▸ hq)
      simp [List.any_append, h1, h2]
    · intro q hq
      have h1 := hs q (List.mem_cons_of_mem _ hq)
      have h2 : (p == q) = false :=
        beq_eq_false_iff_ne.mpr fun e => hp (e ▸ hq)
      simp [List.any_append, h1, h2]

theorem lookup_map_self {β : Type} (ps : List String) (f : String → β) (q : String)
    (h : q ∈ ps) : (ps.map fun p => (p, f p)).lookup q = some (f q) := by
  induction ps with
  | nil => simp at h
  | cons hd tl ih =>
    by_cases hq : q = hd
    · subst hq
      simp [List.lookup_cons]
    · have : q ∈ tl := by
        rcases List.mem_cons.mp h with he | ht
        · exact absurd he hq
        · exact ht
      simp [List.lookup_cons, beq_eq_false_iff_ne.mpr hq, ih this]

theorem registryPaths_nodup : registryPaths.Nodup := by decide

theorem mergeLoop_eq (d : Value) (s : List (String × Value))
    (r : IntegrityReport) (sp : List String) :
    mergeLoop d s r sp =
      (registryPaths.map fun p => (p, mergedVal d s p),
       registryPaths.map fun p => (p, mergedSrc d s r p),
       registryPaths.filterMap (warnOf d s sp)) := by
  simpa [mergeLoop] using
    foldl_mergeStep d s r sp registryPaths [] [] [] registryPaths_nodup
      (by simp) (by simp)

theorem applyInference_lookup_ne (d : Value) (s : List (String × Value))
    (fs fs2 : List (String × Value)) (ss ss2 : List (String × MergeSource))
    (h : applyInference d s fs ss = Except.ok (fs2, ss2)) (q : String)
    (hq : q ≠ "annual_maximum_remaining") :
    fs2.lookup q = fs.lookup q ∧ ss2.lookup q = ss.lookup q := by
  unfold applyInference at h
  split at h
  · dsimp only at h
    split at h
    · split at h
      · simp only [Except.ok.injEq, Prod.mk.injEq] at h
        obtain ⟨h1, h2⟩ := h
        subst h1; subst h2
        exact ⟨lookup_upsert_ne _ _ _ _ hq, lookup_upsert_ne _ _ _ _ hq⟩
      · simp at h
    · simp only [Except.ok.injEq, Prod.mk.injEq] at h
      obtain ⟨h1, h2⟩ := h
      subst h1; subst h2
      exact ⟨rfl, rfl⟩
  · simp only [Except.ok.injEq, Prod.mk.injEq] at h
    obtain ⟨h1, h2⟩ := h
    subst h1; subst h2
    exact ⟨rfl, rfl⟩

theorem applyInference_keys (d : Value) (s : List (String × Value))
    (fs fs2 : List (String × Value)) (ss ss2 : List (String × MergeSource))
    (h : applyInference d s fs ss = Except.ok (fs2, ss2))
    (hfs : (fs.any fun kv => kv.1 == "annual_maximum_remaining") = true)
    (hss : (ss.any fun kv => kv.1 == "annual_maximum_remaining") = true) :
    fs2.map Prod.fst = fs.map Prod.fst ∧ ss2.map Prod.fst = ss.map Prod.fst := by
  unfold applyInference at h
  split at h
  · dsimp only at h
    split at h
    · split at h
      · simp only [Except.ok.injEq, Prod.mk.injEq] at h
        obtain ⟨h1, h2⟩ := h
        subst h1; subst h2
        exact ⟨keys_upsert_of_mem _ _ _ hfs, keys_upsert_of_mem _ _ _ hss⟩
      · simp at h
    · simp only [Except.ok.injEq, Prod.mk.injEq] at h
      obtain ⟨h1, h2⟩ := h
      subst h1; subst h2
      exact ⟨rfl, rfl⟩
  · simp only [Except.ok.injEq, Prod.mk.injEq] at h
    obtain ⟨h1, h2⟩ := h
    subst h1; subst h2
    exact ⟨rfl, rfl⟩

theorem applyInference_fires (d : Value) (s : List (String × Value))
    (fs : List (String × Value)) (ss : List (String × MergeSource)) (t u : ℤ)
    (hmiss : ss.lookup "annual_maximum_remaining" = some MergeSource.MISSING)
    (ham : orResolve d s "annual_maximum" = Value.int t)
    (hau : orResolve d s "annual_used" = Value.int u) :
    applyInference d s fs ss = Except.ok
      (upsert fs "annual_maximum_remaining" (Value.int (t - u)),
       upsert ss "annual_maximum_remaining" MergeSource.INFERRED) := by
  unfold applyInference
  rw [if_pos hmiss, ham, hau]
  simp [isNull, valueSub]

theorem applyInference_skip_of_not_missing (d : Value) (s : List (String × Value))
    (fs : List (String × Value)) (ss : List (String × MergeSource))
    (h : ¬ ss.lookup "annual_maximum_remaining" = some MergeSource.MISSING) :
    applyInference d s fs ss = Except.ok (fs, ss) := by
  unfold applyInference
  rw [if_neg h]

theorem merge_ok_spec (d : Value) (s : List (String × Value))
    (r : IntegrityReport) (sp : List String) (b : SmartBreakdown)
    (h : mergeIntoSmartBreakdown d s r sp = Except.ok b) :
    applyInference d s (mergeLoop d s r sp).1 (mergeLoop d s r sp).2.1 =
      Except.ok (b.fields, b.sources) ∧
    b.warnings = (mergeLoop d s r sp).2.2 := by
  unfold mergeIntoSmartBreakdown at h
  cases hai : applyInference d s (mergeLoop d s r sp).1 (mergeLoop d s r sp).2.1 with
  | error e => rw [hai] at h; simp at h
  | ok pair =>
    obtain ⟨fs2, ss2⟩ := pair
    rw [hai] at h
    simp only [Except.ok.injEq] at h
    subst h
    exact ⟨rfl, rfl⟩

theorem topCrit_spec (batch : List MissingField) (h : batch ≠ []) :
    (∀ mf ∈ batch, critRank mf.criticality ≤ critRank (topCrit batch)) ∧
    ∃ mf ∈ batch, mf.criticality = topCrit batch := by
  unfold topCrit
  by_cases h1 : (batch.any fun mf => mf.criticality == Criticality.CRITICAL) = true
  · rw [if_pos h1]
    constructor
    · intro mf _
      cases mf.criticality <;> simp [critRank]
    · obtain ⟨mf, hmf, hcc⟩ := List.any_eq_true.mp h1
      exact ⟨mf, hmf, beq_iff_eq.mp hcc⟩
  · rw [if_neg h1]
    have h1f : ∀ mf ∈ batch, mf.criticality ≠ Criticality.CRITICAL := by
      intro mf hmf he
      exact h1 (List.any_eq_true.mpr ⟨mf, hmf, beq_iff_eq.mpr he⟩)
    by_cases h2 : (batch.any fun mf => mf.criticality == Criticality.IMPORTANT) = true
    · rw [if_pos h2]
      constructor
      · intro mf hmf
        cases hc : mf.criticality with
        | CRITICAL => exact absurd hc (h1f mf hmf)
        | IMPORTANT => simp [critRank]
        | NICE_TO_HAVE => simp [critRank]
      · obtain ⟨mf, hmf, hcc⟩ := List.any_eq_true.mp h2
        exact ⟨mf, hmf, beq_iff_eq.mp hcc⟩
    · rw [if_neg h2]
      have h2f : ∀ mf ∈ batch, mf.criticality ≠ Criticality.IMPORTANT := by
        intro mf hmf he
        exact h2 (List.any_eq_true.mpr ⟨mf, hmf, beq_iff_eq.mpr he⟩)
      constructor
      · intro mf hmf
        cases hc : mf.criticality with
        | CRITICAL => exact absurd hc (h1f mf hmf)
        | IMPORTANT => exact absurd hc (h2f mf hmf)
        | NICE_TO_HAVE => simp [critRank]
      · cases batch with
        | nil => exact absurd rfl h
        | cons mf0 tl =>
          refine ⟨mf0, List.mem_cons_self _ _, ?_⟩
          cases hc : mf0.criticality with
          | CRITICAL => exact absurd hc (h1f mf0 (List.mem_cons_self _ _))
          | IMPORTANT => exact absurd hc (h2f mf0 (List.mem_cons_self _ _))
          | NICE_TO_HAVE => rfl

theorem mem_buildRetrievalJobs (mfs : List MissingField) (j : RetrievalJob)
    (hj : j ∈ buildRetrievalJobs mfs) :
    ∃ m, j = { method := m,
               fields_requested := (batchOf mfs m).map (·.field_path),
               criticality := topCrit (batchOf mfs m) } ∧
      (batchOf mfs m).isEmpty = false := by
  unfold buildRetrievalJobs at hj
  rw [List.mem_filterMap] at hj
  obtain ⟨m, _, hfm⟩ := hj
  unfold mkJobFor at hfm
  cases hbe : (batchOf mfs m).isEmpty with
  | true => rw [if_pos hbe] at hfm; exact absurd hfm (by simp)
  | false =>
    rw [if_neg (by simp [hbe])] at hfm
    exact ⟨m, (Option.some.inj hfm).symm, hbe⟩

theorem splitCharAux_ne_nil (c : Char) :
    ∀ (cs acc : List Char), splitCharAux c cs acc ≠ [] := by
  intro cs
  induction cs with
  | nil => intro acc; simp [splitCharAux]
  | cons a rest ih =>
    intro acc
    unfold splitCharAux
    by_cases hc : (a == c) = true
    · simp [hc]
    · simpa [hc] using ih (a :: acc)

theorem pySplitDot_ne_nil (s : String) : pySplitDot s ≠ [] :=
  splitCharAux_ne_nil '.' s.toList []

theorem getNestedParts_nondict (v : Value) (parts : List String)
    (hv : ∀ kvs, v ≠ Value.obj kvs) (hp : parts ≠ []) :
    getNestedParts v parts = Value.null := by
  cases parts with
  | nil => exact absurd rfl hp
  | cons a rest =>
    cases v with
    | obj kvs => exact absurd rfl (hv kvs)
    | null => rfl
    | bool b => rfl
    | int n => rfl
    | str s => rfl
    | arr xs => rfl

theorem getNested_nondict (v : Value) (p : String)
    (hv : ∀ kvs, v ≠ Value.obj kvs) : getNested v p = Value.null :=
  getNestedParts_nondict v (pySplitDot p) hv (pySplitDot_ne_nil p)

theorem registry_find_self : ∀ reg ∈ FIELD_REGISTRY,
    (FIELD_REGISTRY.find? fun r2 => r2.field_path == reg.field_path) = some reg := by
  decide

theorem amr_mem_registryPaths : "annual_maximum_remaining" ∈ registryPaths := by
  decide

theorem secondarySourceOf_ne_missing (r : IntegrityReport) (p : String) :
    secondarySourceOf r p ≠ MergeSource.MISSING := by
  unfold secondarySourceOf
  cases hf : r.retrieval_jobs.find? fun job => job.result.any fun kv => kv.1 == p with
  | none => simp
  | some job => cases hm : job.method <;> simp [hm]

theorem mergedVal_null_iff (d : Value) (s : List (String × Value))
    (r : IntegrityReport) (p : String) :
    mergedVal d s p = Value.null ↔ mergedSrc d s r p = MergeSource.MISSING := by
  unfold mergedVal mergedSrc
  cases h1 : isMissing (getNested d p) with
  | false =>
    simp only [h1, Bool.not_false, if_pos]
    constructor
    · intro he
      rw [he] at h1
      simp [isMissing] at h1
    · intro he
      exact absurd he (by simp)
  | true =>
    cases h2 : isMissing (secVal s p) with
    | false =>
      simp only [h1, h2, Bool.not_true, Bool.not_false, Bool.false_eq_true,
        if_false, if_pos]
      constructor
      · intro he
        rw [he] at h2
        simp [isMissing] at h2
      · intro he
        exact absurd he (secondarySourceOf_ne_missing r p)
    | true => simp [h1, h2]

theorem valueSub_int (a b v : Value) (h : valueSub a b = Except.ok v) :
    ∃ w : Int, v = Value.int w := by
  cases a <;> cases b <;> simp [valueSub] at h <;> exact ⟨_, h.symm⟩

theorem applyInference_amr (d : Value) (s : List (String × Value))
    (fs fs2 : List (String × Value)) (ss ss2 : List (String × MergeSource))
    (h : applyInference d s fs ss = Except.ok (fs2, ss2)) :
    (fs2 = fs ∧ ss2 = ss) ∨
    ∃ w : Int, fs2 = upsert fs "annual_maximum_remaining" (Value.int w) ∧
      ss2 = upsert ss "annual_maximum_remaining" MergeSource.INFERRED := by
  unfold applyInference at h
  split at h
  · dsimp only at h
    split at h
    · split at h
      · rename_i inferred heq
        obtain ⟨w, hw⟩ := valueSub_int _ _ _ heq
        subst hw
        simp only [Except.ok.injEq, Prod.mk.injEq] at h
        obtain ⟨h1, h2⟩ := h
        exact Or.inr ⟨w, h1.symm, h2.symm⟩
      · simp at h
    · simp only [Except.ok.injEq, Prod.mk.injEq] at h
      obtain ⟨h1, h2⟩ := h
      exact Or.inl ⟨h1.symm, h2.symm⟩
  · simp only [Except.ok.injEq, Prod.mk.injEq] at h
    obtain ⟨h1, h2⟩ := h
    exact Or.inl ⟨h1.symm, h2.symm⟩

theorem procedureIsRelevant_iff (sched procs : List String) :
    procedureIsRelevant sched procs = true ↔
      ("*" ∈ procs ∨ ∃ sp ∈ sched, ∃ m ∈ procs,
        (strInStr (pyLower m) (pyLower sp) = true ∨
         strInStr (pyLower sp) (pyLower m) = true)) := by
  unfold procedureIsRelevant
  by_cases hstar : procs.contains "*" = true
  · simp [hstar, List.elem_iff.mp hstar]
  · have hn : ¬ ("*" ∈ procs) := fun hm => hstar (List.elem_iff.mpr hm)
    simp [hstar, hn, List.any_eq_true]

/-! ### Claim theorems -/

/-- C1: `evaluate_integrity` sets `block_appointment = true` iff some
CRITICAL-tier registry field is classified missing in the document and is
relevant to today's schedule, where relevance means a `"*"` matcher or a
case-insensitive mutual-substring match between a scheduled-procedure
description and one of the descriptor's matcher strings.  In particular a
missing CRITICAL field that is not relevant does not set the flag. -/
theorem block_appointment_iff (doc : Value) (sched : List String) :
    (evaluateIntegrity doc sched).block_appointment = true ↔
      ∃ reg ∈ FIELD_REGISTRY, reg.criticality = Criticality.CRITICAL ∧
        isMissing (getNested doc reg.field_path) = true ∧
        ("*" ∈ reg.procedures ∨ ∃ sp ∈ sched, ∃ m ∈ reg.procedures,
          (strInStr (pyLower m) (pyLower sp) = true ∨
           strInStr (pyLower sp) (pyLower m) = true)) := by
  show (criticalMissing doc sched).any (·.relevant_to_today) = true ↔ _
  rw [List.any_eq_true]
  constructor
  · rintro ⟨mf, hmf, hrel⟩
    unfold criticalMissing at hmf
    rw [List.mem_map] at hmf
    obtain ⟨reg, hreg, hmk⟩ := hmf
    rw [List.mem_filter] at hreg
    obtain ⟨hreg1, hcrit⟩ := hreg
    unfold missingRegs at hreg1
    rw [List.mem_filter] at hreg1
    refine ⟨reg, hreg1.1, beq_iff_eq.mp hcrit, hreg1.2, ?_⟩
    have hmk2 : mf.relevant_to_today = procedureIsRelevant sched reg.procedures := by
      rw [← hmk]
      rfl
    exact (procedureIsRelevant_iff sched reg.procedures).mp (hmk2 ▸ hrel)
  · rintro ⟨reg, hregmem, hcrit, hmiss, hrel⟩
    refine ⟨mkMissingField sched reg, ?_, ?_⟩
    · unfold criticalMissing
      rw [List.mem_map]
      refine ⟨reg, List.mem_filter.mpr ⟨?_, beq_iff_eq.mpr hcrit⟩, rfl⟩
      unfold missingRegs
      exact List.mem_filter.mpr ⟨hregmem, hmiss⟩
    · show procedureIsRelevant sched reg.procedures = true
      exact (procedureIsRelevant_iff _ _).mpr hrel

/-- Witness for C1 at a concrete input: an empty document with an implant
consult scheduled blocks the appointment (wildcard CRITICAL fields are
missing and relevant). -/
theorem block_appointment_iff_witness :
    (evaluateIntegrity (Value.obj []) ["Implant Consult #30 D6010"]).block_appointment
      = true :=
  (block_appointment_iff (Value.obj []) ["Implant Consult #30 D6010"]).mpr (by decide)

/-- C2: a value is classified missing exactly when it is null/absent, an
empty dict or empty list, or a string whose trimmed lower-cased form is
one of the ten sentinel strings; the numeric value 0 is present. -/
theorem missingness_characterization :
    (∀ v : Value, isMissing v = true ↔
      (v = Value.null ∨ v = Value.arr [] ∨ v = Value.obj [] ∨
       ∃ s, v = Value.str s ∧ pyLower (pyStrip s) ∈ sentinelStrings)) ∧
    sentinelStrings.length = 10 ∧
    isMissing (Value.int 0) = false := by
  refine ⟨?_, rfl, rfl⟩
  intro v
  cases v with
  | null => simp [isMissing]
  | bool b => simp [isMissing]
  | int n => simp [isMissing]
  | str s => simp [isMissing, List.elem_iff]
  | arr xs => simp [isMissing, List.isEmpty_iff]
  | obj kvs => simp [isMissing, List.isEmpty_iff]

/-- Witness for C2 at concrete inputs: the sentinel string " N/A " (with
whitespace and mixed case) is missing, and 0 is present. -/
theorem missingness_characterization_witness :
    isMissing (Value.str " N/A ") = true ∧ isMissing (Value.int 0) = false :=
  ⟨(missingness_characterization.1 (Value.str " N/A ")).mpr
    (Or.inr (Or.inr (Or.inr ⟨" N/A ", rfl, by decide⟩))),
   missingness_characterization.2.2⟩

/-- C6: the job builder excludes exactly the NICE_TO_HAVE fields that are
not relevant-to-today; it emits at most one job per retrieval method, in
the fixed order RPA_SCRAPE, PDF_ANALYSIS, MANUAL_CALL; each job carries
exactly the retained field paths preferring its method, with each
retained record's path placed in the (unique) job of its preferred
method; and each job's criticality is the highest tier among its
fields. -/
theorem build_jobs_spec (mfs : List MissingField) :
    (∀ mf ∈ mfs, (mf ∈ fieldsToRetrieve mfs ↔
        ¬(mf.criticality = Criticality.NICE_TO_HAVE ∧
          mf.relevant_to_today = false))) ∧
    (buildRetrievalJobs mfs).map (·.method) =
        (methodOrder.filter fun m => !(batchOf mfs m).isEmpty) ∧
    (∀ j ∈ buildRetrievalJobs mfs,
        j.fields_requested = (batchOf mfs j.method).map (·.field_path)) ∧
    (∀ j ∈ buildRetrievalJobs mfs,
        (∀ mf ∈ batchOf mfs j.method,
          critRank mf.criticality ≤ critRank j.criticality) ∧
        ∃ mf ∈ batchOf mfs j.method, mf.criticality = j.criticality) ∧
    (∀ mf ∈ fieldsToRetrieve mfs, ∃ j ∈ buildRetrievalJobs mfs,
        j.method = mf.preferred_retrieval ∧
        mf.field_path ∈ j.fields_requested) ∧
    (∀ j1 ∈ buildRetrievalJobs mfs, ∀ j2 ∈ buildRetrievalJobs mfs,
        j1.method = j2.method → j1 = j2) := by
  refine ⟨?_, ?_, ?_, ?_, ?_, ?_⟩
  · intro mf hmf
    unfold fieldsToRetrieve
    rw [List.mem_filter]
    constructor
    · rintro ⟨_, hp⟩ ⟨hc, hr⟩
      rw [hc, hr] at hp
      simp at hp
    · intro hn
      refine ⟨hmf, ?_⟩
      by_cases hc : mf.criticality = Criticality.NICE_TO_HAVE
      · cases hr : mf.relevant_to_today with
        | true => simp [hr]
        | false => exact absurd ⟨hc, hr⟩ hn
      · simp [beq_eq_false_iff_ne.mpr hc]
  · have gen : ∀ ms : List RetrievalMethod,
        (ms.filterMap (mkJobFor mfs)).map (·.method) =
          ms.filter fun m => !(batchOf mfs m).isEmpty := by
      intro ms
      induction ms with
      | nil => rfl
      | cons m rest ih =>
        cases hb : (batchOf mfs m).isEmpty with
        | true => simp [List.filterMap_cons, List.filter_cons, mkJobFor, hb, ih]
        | false => simp [List.filterMap_cons, List.filter_cons, mkJobFor, hb, ih]
    exact gen methodOrder
  · intro j hj
    obtain ⟨m, hm, _⟩ := mem_buildRetrievalJobs mfs j hj
    subst hm
    rfl
  · intro j hj
    obtain ⟨m, hm, hne⟩ := mem_buildRetrievalJobs mfs j hj
    subst hm
    have hnn : batchOf mfs m ≠ [] := by
      intro he
      rw [he] at hne
      simp at hne
    exact topCrit_spec (batchOf mfs m) hnn
  · intro mf hmf
    have hbatch : mf ∈ batchOf mfs mf.preferred_retrieval := by
      unfold batchOf
      exact List.mem_filter.mpr ⟨hmf, by simp⟩
    have hne : ¬ (batchOf mfs mf.preferred_retrieval).isEmpty = true := by
      intro he
      rw [List.isEmpty_iff.mp he] at hbatch
      simp at hbatch
    refine ⟨{ method := mf.preferred_retrieval,
              fields_requested :=
                (batchOf mfs mf.preferred_retrieval).map (·.field_path),
              criticality := topCrit (batchOf mfs mf.preferred_retrieval) },
            ?_, rfl, List.mem_map_of_mem _ hbatch⟩
    unfold buildRetrievalJobs
    rw [List.mem_filterMap]
    refine ⟨mf.preferred_retrieval, ?_, by unfold mkJobFor; rw [if_neg hne]⟩
    cases mf.preferred_retrieval <;> simp [methodOrder]
  · intro j1 hj1 j2 hj2 hm
    obtain ⟨m1, he1, _⟩ := mem_buildRetrievalJobs mfs j1 hj1
    obtain ⟨m2, he2, _⟩ := mem_buildRetrievalJobs mfs j2 hj2
    have : m1 = m2 := by
      have g1 : j1.method = m1 := by rw [he1]
      have g2 : j2.method = m2 := by rw [he2]
      rw [← g1, ← g2, hm]
    subst this
    rw [he1, he2]

/-- Witness for C6 at a concrete input: two missing fields (one CRITICAL
for RPA, one irrelevant NICE_TO_HAVE) produce one RPA job carrying the
CRITICAL field, with the NICE_TO_HAVE field dropped. -/
theorem build_jobs_spec_witness :
    ∃ j ∈ buildRetrievalJobs
      [{ field_path := "annual_maximum_remaining",
         description := "Annual Maximum Remaining",
         criticality := Criticality.CRITICAL,
         preferred_retrieval := RetrievalMethod.RPA_SCRAPE,
         fallback_retrieval := RetrievalMethod.PDF_ANALYSIS,
         relevant_to_today := true },
       { field_path := "fluoride_coverage",
         description := "Fluoride Coverage",
         criticality := Criticality.NICE_TO_HAVE,
         preferred_retrieval := RetrievalMethod.RPA_SCRAPE,
         fallback_retrieval := RetrievalMethod.PDF_ANALYSIS,
         relevant_to_today := false }],
      j.method = RetrievalMethod.RPA_SCRAPE ∧
      "annual_maximum_remaining" ∈ j.fields_requested :=
  (build_jobs_spec _).2.2.2.2.1
    { field_path := "annual_maximum_remaining",
      description := "Annual Maximum Remaining",
      criticality := Criticality.CRITICAL,
      preferred_retrieval := RetrievalMethod.RPA_SCRAPE,
      fallback_retrieval := RetrievalMethod.PDF_ANALYSIS,
      relevant_to_today := true } (by decide)

/-- C7 counterexample: on a document whose root is not a dict, the
evaluator does not fail — `_get_nested` resolves every path to absent, so
a normal IntegrityReport is returned (all fields missing, grade F, the
appointment blocked), contradicting the claim that the request fails with
an error. -/
theorem nondict_root_returns_report :
    (evaluateIntegrity (Value.str "not a mapping")
      ["Crown Prep #14 D2740"]).completeness_score = 0 ∧
    (evaluateIntegrity (Value.str "not a mapping")
      ["Crown Prep #14 D2740"]).completeness_grade = "F" ∧
    (evaluateIntegrity (Value.str "not a mapping")
      ["Crown Prep #14 D2740"]).block_appointment = true := by
  have hfp : fieldsPresent (Value.str "not a mapping") = 0 := by decide
  have hs : (evaluateIntegrity (Value.str "not a mapping")
      ["Crown Prep #14 D2740"]).completeness_score =
      (fieldsPresent (Value.str "not a mapping") : ℚ) /
      (FIELD_REGISTRY.length : ℚ) := rfl
  have hg : (evaluateIntegrity (Value.str "not a mapping")
      ["Crown Prep #14 D2740"]).completeness_grade =
      gradeOf ((fieldsPresent (Value.str "not a mapping") : ℚ) /
      (FIELD_REGISTRY.length : ℚ)) := rfl
  have hlen : FIELD_REGISTRY.length = 16 := rfl
  refine ⟨?_, ?_, by decide⟩
  · rw [hs, hfp, hlen]
    norm_num
  · rw [hg, hfp, hlen]
    norm_num [gradeOf]

/-- C7 amended: a raw document that is not a dict at the root never makes
`evaluate_integrity` raise; every dotted path resolves to absent, so the
report equals the one for a fully absent document; and a non-dict
intermediate node on a dotted path likewise yields absent (ordinary
missingness), never an error. -/
theorem nondict_root_like_empty :
    (∀ (doc : Value) (sched : List String), (∀ kvs, doc ≠ Value.obj kvs) →
      evaluateIntegrity doc sched = evaluateIntegrity Value.null sched) ∧
    (∀ (v : Value) (parts : List String), (∀ kvs, v ≠ Value.obj kvs) →
      parts ≠ [] → getNestedParts v parts = Value.null) := by
  constructor
  · intro doc sched hnd
    have hval : ∀ p : String, getNested doc p = getNested Value.null p := by
      intro p
      rw [getNested_nondict doc p hnd,
        getNested_nondict Value.null p fun kvs h => by cases h]
    have hmr : missingRegs doc = missingRegs Value.null := by
      unfold missingRegs
      exact List.filter_congr fun reg _ => by rw [hval reg.field_path]
    have hfp : fieldsPresent doc = fieldsPresent Value.null := by
      unfold fieldsPresent
      exact congrArg List.length
        (List.filter_congr fun reg _ => by rw [hval reg.field_path])
    unfold evaluateIntegrity criticalMissing importantMissing niceMissing
    rw [hmr, hfp]
  · exact getNestedParts_nondict

/-- Witness for C7 amended at a concrete input: an integer root behaves
exactly like the absent document, and a non-dict intermediate node
resolves to null. -/
theorem nondict_root_like_empty_witness :
    evaluateIntegrity (Value.int 7) ["Crown Prep #14 D2740"] =
      evaluateIntegrity Value.null ["Crown Prep #14 D2740"] ∧
    getNestedParts (Value.int 7) ["D2740"] = Value.null :=
  ⟨nondict_root_like_empty.1 (Value.int 7) ["Crown Prep #14 D2740"]
      (fun kvs h => by cases h),
   nondict_root_like_empty.2 (Value.int 7) ["D2740"]
      (fun kvs h => by cases h) (by simp)⟩

/-- C8: when every registry path resolves to a non-missing value in the
document, the evaluator reports completeness 1.0, grade A, an empty job
list and no block, for any schedule. -/
theorem full_document_report (doc : Value) (sched : List String)
    (h : ∀ reg ∈ FIELD_REGISTRY, isMissing (getNested doc reg.field_path) = false) :
    (evaluateIntegrity doc sched).completeness_score = 1 ∧
    (evaluateIntegrity doc sched).completeness_grade = "A" ∧
    (evaluateIntegrity doc sched).retrieval_jobs = [] ∧
    (evaluateIntegrity doc sched).block_appointment = false := by
  have hmr : missingRegs doc = [] := by
    unfold missingRegs
    refine List.filter_eq_nil_iff.mpr fun reg hreg => ?_
    rw [h reg hreg]
    simp
  have hcm : criticalMissing doc sched = [] := by
    unfold criticalMissing
    rw [hmr]
    rfl
  have him : importantMissing doc sched = [] := by
    unfold importantMissing
    rw [hmr]
    rfl
  have hnm : niceMissing doc sched = [] := by
    unfold niceMissing
    rw [hmr]
    rfl
  have hfp : fieldsPresent doc = 16 := by
    unfold fieldsPresent
    rw [List.filter_eq_self.mpr fun reg hreg => by rw [h reg hreg]; rfl]
    rfl
  have hscore : (evaluateIntegrity doc sched).completeness_score =
      (fieldsPresent doc : ℚ) / (FIELD_REGISTRY.length : ℚ) := rfl
  have hlen : (FIELD_REGISTRY.length : ℚ) = 16 := by rfl
  have h1 : (evaluateIntegrity doc sched).completeness_score = 1 := by
    rw [hscore, hfp, hlen]
    norm_num
  refine ⟨h1, ?_, ?_, ?_⟩
  · have hg : (evaluateIntegrity doc sched).completeness_grade =
        gradeOf ((fieldsPresent doc : ℚ) / (FIELD_REGISTRY.length : ℚ)) := rfl
    rw [hg, hfp, hlen]
    norm_num [gradeOf]
  · have hj : (evaluateIntegrity doc sched).retrieval_jobs =
        buildRetrievalJobs (criticalMissing doc sched ++
          importantMissing doc sched ++ niceMissing doc sched) := rfl
    rw [hj, hcm, him, hnm]
    rfl
  · have hb : (evaluateIntegrity doc sched).block_appointment =
        (criticalMissing doc sched).any (·.relevant_to_today) := rfl
    rw [hb, hcm]
    rfl

/-- Witness for C8 at a concrete fully-populated document. -/
theorem full_document_report_witness :
    (evaluateIntegrity fullDoc ["Crown Prep #14 D2740"]).completeness_score = 1 ∧
    (evaluateIntegrity fullDoc ["Crown Prep #14 D2740"]).completeness_grade = "A" ∧
    (evaluateIntegrity fullDoc ["Crown Prep #14 D2740"]).retrieval_jobs = [] ∧
    (evaluateIntegrity fullDoc ["Crown Prep #14 D2740"]).block_appointment = false :=
  full_document_report fullDoc ["Crown Prep #14 D2740"] (by decide)

/-- C3: whenever a registry path resolves to a non-missing value in the
document, the merged SmartBreakdown carries the document's value at that
path with provenance API, regardless of the recovered map's contents. -/
theorem primary_precedence (d : Value) (s : List (String × Value))
    (r : IntegrityReport) (sp : List String) (p : String)
    (hp : p ∈ registryPaths) (h : isMissing (getNested d p) = false) :
    ∀ b, mergeIntoSmartBreakdown d s r sp = Except.ok b →
      b.fields.lookup p = some (getNested d p) ∧
      b.sources.lookup p = some MergeSource.API := by
  intro b hb
  obtain ⟨hai, _⟩ := merge_ok_spec d s r sp b hb
  rw [mergeLoop_eq] at hai
  dsimp only at hai
  have hval : mergedVal d s p = getNested d p := by
    unfold mergedVal
    rw [h]
    simp
  have hsrc : mergedSrc d s r p = MergeSource.API := by
    unfold mergedSrc
    rw [h]
    simp
  by_cases hamr : p = "annual_maximum_remaining"
  · subst hamr
    have hnm : ¬ ((registryPaths.map fun q => (q, mergedSrc d s r q)).lookup
        "annual_maximum_remaining" = some MergeSource.MISSING) := by
      rw [lookup_map_self _ _ _ hp, hsrc]
      simp
    rw [applyInference_skip_of_not_missing _ _ _ _ hnm] at hai
    simp only [Except.ok.injEq, Prod.mk.injEq] at hai
    obtain ⟨h1, h2⟩ := hai
    rw [← h1, ← h2, lookup_map_self _ _ _ hp, lookup_map_self _ _ _ hp, hval, hsrc]
    exact ⟨rfl, rfl⟩
  · obtain ⟨hf2, hs2⟩ := applyInference_lookup_ne d s _ b.fields _ b.sources hai p hamr
    rw [hf2, hs2, lookup_map_self _ _ _ hp, lookup_map_self _ _ _ hp, hval, hsrc]
    exact ⟨rfl, rfl⟩

/-- Witness for C3 at a concrete input: the document value 5000 wins over
a conflicting recovered value 9999 and is tagged API. -/
theorem primary_precedence_witness :
    ((mergeIntoSmartBreakdown (Value.obj [("individual_deductible", Value.int 5000)])
        [("individual_deductible", Value.int 9999)] emptyReport []).toOption.getD
      emptyBreakdown).fields.lookup "individual_deductible" =
      some (getNested (Value.obj [("individual_deductible", Value.int 5000)])
        "individual_deductible") ∧
    ((mergeIntoSmartBreakdown (Value.obj [("individual_deductible", Value.int 5000)])
        [("individual_deductible", Value.int 9999)] emptyReport []).toOption.getD
      emptyBreakdown).sources.lookup "individual_deductible" =
      some MergeSource.API :=
  primary_precedence (Value.obj [("individual_deductible", Value.int 5000)])
    [("individual_deductible", Value.int 9999)] emptyReport [] "individual_deductible"
    (by decide) (by decide)
    ((mergeIntoSmartBreakdown (Value.obj [("individual_deductible", Value.int 5000)])
        [("individual_deductible", Value.int 9999)] emptyReport []).toOption.getD
      emptyBreakdown) rfl

/-- C4 counterexample: with annual_maximum = 200000 and annual_used = 0
in the document (both non-missing, hence "known from primary data") and
annual_maximum_remaining absent everywhere, the merger does NOT infer
remaining = 200000: Python's `or`-coalescing treats the falsy document
value 0 as absent, the coalesced operand becomes None, and the field
stays null with provenance MISSING — refuting the claim's general rule. -/
theorem inference_zero_counterexample :
    ((mergeIntoSmartBreakdown
        (Value.obj [("annual_maximum", Value.int 200000), ("annual_used", Value.int 0)])
        [] emptyReport []).toOption.getD emptyBreakdown).sources.lookup
      "annual_maximum_remaining" = some MergeSource.MISSING ∧
    ((mergeIntoSmartBreakdown
        (Value.obj [("annual_maximum", Value.int 200000), ("annual_used", Value.int 0)])
        [] emptyReport []).toOption.getD emptyBreakdown).fields.lookup
      "annual_maximum_remaining" = some Value.null ∧
    isMissing (getNested
      (Value.obj [("annual_maximum", Value.int 200000), ("annual_used", Value.int 0)])
      "annual_maximum") = false ∧
    isMissing (getNested
      (Value.obj [("annual_maximum", Value.int 200000), ("annual_used", Value.int 0)])
      "annual_used") = false :=
  ⟨rfl, rfl, rfl, rfl⟩

/-- C4 amended: when annual_maximum_remaining is missing from both the
document and the recovered map, and the Python `or`-coalescing of the
document value and the recovered value yields an integer for both
annual_maximum and annual_used (a falsy document value such as 0 defers
to the recovered map, and a coalesced None skips inference), the merger
writes remaining = total - used with provenance INFERRED.  The concrete
200000/55000 instance of the claim holds (see the witness). -/
theorem inference_amended (d : Value) (s : List (String × Value))
    (r : IntegrityReport) (sp : List String) (t u : Int)
    (h1 : isMissing (getNested d "annual_maximum_remaining") = true)
    (h2 : isMissing (secVal s "annual_maximum_remaining") = true)
    (ham : orResolve d s "annual_maximum" = Value.int t)
    (hau : orResolve d s "annual_used" = Value.int u) :
    ∃ b, mergeIntoSmartBreakdown d s r sp = Except.ok b ∧
      b.fields.lookup "annual_maximum_remaining" = some (Value.int (t - u)) ∧
      b.sources.lookup "annual_maximum_remaining" = some MergeSource.INFERRED := by
  have hsrc : mergedSrc d s r "annual_maximum_remaining" = MergeSource.MISSING := by
    unfold mergedSrc
    rw [h1, h2]
    simp
  have hmiss : (registryPaths.map fun q => (q, mergedSrc d s r q)).lookup
      "annual_maximum_remaining" = some MergeSource.MISSING := by
    rw [lookup_map_self _ _ _ amr_mem_registryPaths, hsrc]
  have hfire := applyInference_fires d s
    (registryPaths.map fun q => (q, mergedVal d s q))
    (registryPaths.map fun q => (q, mergedSrc d s r q)) t u hmiss ham hau
  have hmerge : mergeIntoSmartBreakdown d s r sp = Except.ok
      { completeness_score := mergeCompleteness
          (upsert (registryPaths.map fun q => (q, mergedVal d s q))
            "annual_maximum_remaining" (Value.int (t - u)))
        completeness_grade := gradeOf (mergeCompleteness
          (upsert (registryPaths.map fun q => (q, mergedVal d s q))
            "annual_maximum_remaining" (Value.int (t - u))))
        fields := upsert (registryPaths.map fun q => (q, mergedVal d s q))
          "annual_maximum_remaining" (Value.int (t - u))
        sources := upsert (registryPaths.map fun q => (q, mergedSrc d s r q))
          "annual_maximum_remaining" MergeSource.INFERRED
        warnings := registryPaths.filterMap (warnOf d s sp) } := by
    unfold mergeIntoSmartBreakdown
    rw [mergeLoop_eq]
    dsimp only
    rw [hfire]
  refine ⟨_, hmerge, ?_, ?_⟩
  · show (upsert (registryPaths.map fun q => (q, mergedVal d s q))
        "annual_maximum_remaining" (Value.int (t - u))).lookup
        "annual_maximum_remaining" = some (Value.int (t - u))
    exact lookup_upsert_self _ _ _
  · show (upsert (registryPaths.map fun q => (q, mergedSrc d s r q))
        "annual_maximum_remaining" MergeSource.INFERRED).lookup
        "annual_maximum_remaining" = some MergeSource.INFERRED
    exact lookup_upsert_self _ _ _

/-- Witness for C4 amended: the claim's concrete scenario — document
total 200000 and used 55000, remaining absent — yields 145000 tagged
INFERRED. -/
theorem inference_amended_witness :
    ∃ b, mergeIntoSmartBreakdown
        (Value.obj [("annual_maximum", Value.int 200000),
                    ("annual_used", Value.int 55000)])
        [] emptyReport [] = Except.ok b ∧
      b.fields.lookup "annual_maximum_remaining" = some (Value.int 145000) ∧
      b.sources.lookup "annual_maximum_remaining" = some MergeSource.INFERRED :=
  inference_amended
    (Value.obj [("annual_maximum", Value.int 200000),
                ("annual_used", Value.int 55000)])
    [] emptyReport [] 200000 55000 (by decide) (by decide) rfl rfl

/-- C9 counterexample: with annual_maximum = 200000 and annual_used =
55000 in the document and annual_maximum_remaining absent everywhere, the
merge loop appends the warning naming "Annual Maximum Remaining" (the
field is CRITICAL and wildcard-relevant) BEFORE the inference step runs;
inference then upgrades the field to INFERRED without removing the
warning — so an INFERRED field does carry a warning naming it, refuting
the claim. -/
theorem inferred_warning_counterexample :
    ((mergeIntoSmartBreakdown
        (Value.obj [("annual_maximum", Value.int 200000),
                    ("annual_used", Value.int 55000)])
        [] emptyReport ["Crown Prep #14 D2740"]).toOption.getD
      emptyBreakdown).sources.lookup "annual_maximum_remaining" =
      some MergeSource.INFERRED ∧
    "⚠ Annual Maximum Remaining could not be retrieved — estimate may be inaccurate"
      ∈ ((mergeIntoSmartBreakdown
        (Value.obj [("annual_maximum", Value.int 200000),
                    ("annual_used", Value.int 55000)])
        [] emptyReport ["Crown Prep #14 D2740"]).toOption.getD
      emptyBreakdown).warnings := by
  exact ⟨rfl, by decide⟩

/-- C9 amended: the warnings list is exactly one warning per registry
field that is missing from both the document and the recovered map, is
relevant to today and is CRITICAL or IMPORTANT — determined during the
per-path pass, before inference; the later inference step can leave an
INFERRED field whose warning remains. -/
theorem warnings_characterization (d : Value) (s : List (String × Value))
    (r : IntegrityReport) (sp : List String) (b : SmartBreakdown)
    (h : mergeIntoSmartBreakdown d s r sp = Except.ok b) :
    b.warnings = FIELD_REGISTRY.filterMap fun reg =>
      if (isMissing (getNested d reg.field_path) &&
          isMissing (secVal s reg.field_path) &&
          procedureIsRelevant sp reg.procedures &&
          (reg.criticality == Criticality.CRITICAL ||
           reg.criticality == Criticality.IMPORTANT)) = true
      then some (warnText reg) else none := by
  obtain ⟨_, hw⟩ := merge_ok_spec d s r sp b h
  rw [mergeLoop_eq] at hw
  dsimp only at hw
  rw [hw]
  unfold registryPaths
  rw [List.filterMap_map]
  refine List.filterMap_congr fun reg hreg => ?_
  show warnOf d s sp reg.field_path = _
  unfold warnOf
  rw [registry_find_self reg hreg]
  cases hm1 : isMissing (getNested d reg.field_path) with
  | false => simp [hm1]
  | true =>
    cases hm2 : isMissing (secVal s reg.field_path) with
    | false => simp [hm1, hm2]
    | true => simp [hm1, hm2]

/-- Witness for C9 amended at the counterexample's concrete input. -/
theorem warnings_characterization_witness :
    ((mergeIntoSmartBreakdown
        (Value.obj [("annual_maximum", Value.int 200000),
                    ("annual_used", Value.int 55000)])
        [] emptyReport ["Crown Prep #14 D2740"]).toOption.getD
      emptyBreakdown).warnings = FIELD_REGISTRY.filterMap fun reg =>
      if (isMissing (getNested
            (Value.obj [("annual_maximum", Value.int 200000),
                        ("annual_used", Value.int 55000)]) reg.field_path) &&
          isMissing (secVal [] reg.field_path) &&
          procedureIsRelevant ["Crown Prep #14 D2740"] reg.procedures &&
          (reg.criticality == Criticality.CRITICAL ||
           reg.criticality == Criticality.IMPORTANT)) = true
      then some (warnText reg) else none :=
  warnings_characterization
    (Value.obj [("annual_maximum", Value.int 200000),
                ("annual_used", Value.int 55000)])
    [] emptyReport ["Crown Prep #14 D2740"]
    ((mergeIntoSmartBreakdown
        (Value.obj [("annual_maximum", Value.int 200000),
                    ("annual_used", Value.int 55000)])
        [] emptyReport ["Crown Prep #14 D2740"]).toOption.getD emptyBreakdown)
    rfl

/-- C10: for every input on which the merger returns, the key lists of
the fields map and the sources map are exactly the 16 registry paths (in
registry order), and a field's value is null exactly when its provenance
is MISSING. -/
theorem breakdown_invariants (d : Value) (s : List (String × Value))
    (r : IntegrityReport) (sp : List String) (b : SmartBreakdown)
    (h : mergeIntoSmartBreakdown d s r sp = Except.ok b) :
    b.fields.map Prod.fst = registryPaths ∧
    b.sources.map Prod.fst = registryPaths ∧
    ∀ p ∈ registryPaths, ∃ v, b.fields.lookup p = some v ∧
      ((v = Value.null) ↔ b.sources.lookup p = some MergeSource.MISSING) := by
  obtain ⟨hai, _⟩ := merge_ok_spec d s r sp b h
  rw [mergeLoop_eq] at hai
  dsimp only at hai
  have hanyf : ((registryPaths.map fun q => (q, mergedVal d s q)).any
      fun kv => kv.1 == "annual_maximum_remaining") = true :=
    List.any_eq_true.mpr
      ⟨("annual_maximum_remaining", mergedVal d s "annual_maximum_remaining"),
       List.mem_map_of_mem _ amr_mem_registryPaths, by simp⟩
  have hanys : ((registryPaths.map fun q => (q, mergedSrc d s r q)).any
      fun kv => kv.1 == "annual_maximum_remaining") = true :=
    List.any_eq_true.mpr
      ⟨("annual_maximum_remaining", mergedSrc d s r "annual_maximum_remaining"),
       List.mem_map_of_mem _ amr_mem_registryPaths, by simp⟩
  have hmapf : (registryPaths.map fun q => (q, mergedVal d s q)).map Prod.fst =
      registryPaths := by
    rw [List.map_map]
    exact List.map_id _
  have hmaps : (registryPaths.map fun q => (q, mergedSrc d s r q)).map Prod.fst =
      registryPaths := by
    rw [List.map_map]
    exact List.map_id _
  obtain ⟨hkf, hks⟩ := applyInference_keys d s _ b.fields _ b.sources hai hanyf hanys
  refine ⟨hkf.trans hmapf, hks.trans hmaps, ?_⟩
  intro p hp
  rcases applyInference_amr d s _ b.fields _ b.sources hai with ⟨hf, hs⟩ | ⟨w, hf, hs⟩
  · refine ⟨mergedVal d s p, ?_, ?_⟩
    · rw [hf, lookup_map_self _ _ _ hp]
    · rw [hs, lookup_map_self _ _ _ hp]
      constructor
      · intro he
        rw [(mergedVal_null_iff d s r p).mp he]
      · intro he
        exact (mergedVal_null_iff d s r p).mpr (Option.some.inj he)
  · by_cases hamr : p = "annual_maximum_remaining"
    · subst hamr
      refine ⟨Value.int w, ?_, ?_⟩
      · rw [hf, lookup_upsert_self]
      · rw [hs, lookup_upsert_self]
        constructor
        · intro he
          exact absurd he (by simp)
        · intro he
          exact absurd (Option.some.inj he) (by simp)
    · refine ⟨mergedVal d s p, ?_, ?_⟩
      · rw [hf, lookup_upsert_ne _ _ _ _ hamr, lookup_map_self _ _ _ hp]
      · rw [hs, lookup_upsert_ne _ _ _ _ hamr, lookup_map_self _ _ _ hp]
        constructor
        · intro he
          rw [(mergedVal_null_iff d s r p).mp he]
        · intro he
          exact (mergedVal_null_iff d s r p).mpr (Option.some.inj he)

/-- Witness for C10 at a concrete input (the empty document). -/
theorem breakdown_invariants_witness :
    ((mergeIntoSmartBreakdown (Value.obj []) [] emptyReport
        []).toOption.getD emptyBreakdown).fields.map Prod.fst = registryPaths ∧
    ((mergeIntoSmartBreakdown (Value.obj []) [] emptyReport
        []).toOption.getD emptyBreakdown).sources.map Prod.fst = registryPaths ∧
    ∀ p ∈ registryPaths, ∃ v,
      ((mergeIntoSmartBreakdown (Value.obj []) [] emptyReport
        []).toOption.getD emptyBreakdown).fields.lookup p = some v ∧
      ((v = Value.null) ↔
        ((mergeIntoSmartBreakdown (Value.obj []) [] emptyReport
          []).toOption.getD emptyBreakdown).sources.lookup p =
          some MergeSource.MISSING) :=
  breakdown_invariants (Value.obj []) [] emptyReport []
    ((mergeIntoSmartBreakdown (Value.obj []) [] emptyReport
      []).toOption.getD emptyBreakdown) rfl

/-- C5 counterexample: under the spec's pluggable-connector contract, a
connector that raises is not isolated — the dispatch loop has no
try/except, so the error propagates, the dispatch does not complete, the
job is never marked FAILED, and the sibling PDF job's field (which the
built-in PDF connector would supply) never reaches the collected map. -/
theorem connector_failure_counterexample :
    dispatchAndCollectWith failingRpaConnector
      [{ method := RetrievalMethod.RPA_SCRAPE,
         fields_requested := ["annual_maximum_remaining"],
         criticality := Criticality.CRITICAL },
       { method := RetrievalMethod.PDF_ANALYSIS,
         fields_requested := ["ortho_lifetime_maximum"],
         criticality := Criticality.NICE_TO_HAVE }] =
      Except.error "portal connector crashed" := rfl

/-- C5 amended: the dispatcher applies each job's connector sequentially
in criticality order with no error handling, so it completes only because
the repository's built-in connectors are total; with them it always
returns a collected map, and no job is ever marked FAILED — executed jobs
end COMPLETE or MANUAL_REQUIRED.  (An erroring connector would abort the
remaining jobs, as the counterexample shows.) -/
theorem dispatch_total_with_source_connectors (jobs : List RetrievalJob) :
    ∃ done collected, dispatchAndCollect jobs = Except.ok (done, collected) ∧
      ∀ j ∈ done, j.status = "COMPLETE" ∨ j.status = "MANUAL_REQUIRED" := by
  have hrun : ∀ j : RetrievalJob, (runJobSource j).1.status = "COMPLETE" ∨
      (runJobSource j).1.status = "MANUAL_REQUIRED" := by
    intro j
    cases hm : j.method <;>
      simp [runJobSource, hm, rpaScrapeStub, pdfAnalysisStub, manualCallStub]
  have go : ∀ (pending done : List RetrievalJob)
      (collected : List (String × Value)),
      (∀ j ∈ done, j.status = "COMPLETE" ∨ j.status = "MANUAL_REQUIRED") →
      ∃ done2 collected2,
        dispatchLoopWith sourceConnector pending done collected =
          Except.ok (done2, collected2) ∧
        ∀ j ∈ done2, j.status = "COMPLETE" ∨ j.status = "MANUAL_REQUIRED" := by
    intro pending
    induction pending with
    | nil => exact fun done collected hd => ⟨done, collected, rfl, hd⟩
    | cons j rest ih =>
      intro done collected hd
      have hstep : dispatchLoopWith sourceConnector (j :: rest) done collected =
          dispatchLoopWith sourceConnector rest (done ++ [(runJobSource j).1])
            (dictUpdate collected (runJobSource j).2) := rfl
      rw [hstep]
      refine ih (done ++ [(runJobSource j).1]) _ ?_
      intro j2 hj2
      rcases List.mem_append.mp hj2 with hin | hin
      · exact hd j2 hin
      · rw [List.mem_singleton.mp hin]
        exact hrun j
  exact go (sortJobsByCriticality jobs) [] [] (by simp)

/-- Witness for C5 amended at a concrete job list. -/
theorem dispatch_total_witness :
    ∃ done collected, dispatchAndCollect
      [{ method := RetrievalMethod.RPA_SCRAPE,
         fields_requested := ["annual_maximum_remaining"],
         criticality := Criticality.CRITICAL }] = Except.ok (done, collected) ∧
      ∀ j ∈ done, j.status = "COMPLETE" ∨ j.status = "MANUAL_REQUIRED" :=
  dispatch_total_with_source_connectors
    [{ method := RetrievalMethod.RPA_SCRAPE,
       fields_requested := ["annual_maximum_remaining"],
       criticality := Criticality.CRITICAL }]

end Pulp
